import Mathlib

set_option maxHeartbeats 1000000

/-! Verification development for the `odis2vcp` dataset extractor.

Shallow embedding of the conversion pipeline of `odis2vcp.py`:
the functions `_run`, `_parse_small_oe_file`, `_extract_to_raw` and
`_convert_to_vcp`.  Python strings are Lean `String`s.  Python's
`str.replace(pat, "")` (a single left-to-right, non-overlapping pass)
is modelled by structural scanners over `List Char`.
`binascii.unhexlify` is modelled by `unhexlifyL`, and
`len(s.encode("utf-8"))` by `utf8Len`.  The module-level globals
`dataset_counter` / `extracted_dataset_counter` are threaded explicitly
through the run as part of the parser state. -/

/-- One `PARAMETER_DATA` element of the input ODIS document: the five
optional metadata attributes, and the text of the element's first child
node (`none` when the element has no text child, in which case the
Python code raises at `parameter_data.childNodes[0].data`). -/
structure OdisElement where
  diagnosticAddress : Option String
  startAddress : Option String
  zdcName : Option String
  zdcVersion : Option String
  login : Option String
  payload : Option String

/-- The mutable state of `_parse_small_oe_file`: the six local variables
(`diagnostic_address`, `start_address`, `zdc_name`, `zdc_version`,
`login`, `filename`; `none` models a still-unbound local) together with
the two module-level counters (`dataset_counter`,
`extracted_dataset_counter`). -/
structure ParseState where
  diagnosticAddress : Option String
  startAddress : Option String
  zdcName : Option String
  zdcVersion : Option String
  login : Option String
  filename : Option String
  datasetCounter : Nat
  extractedCounter : Nat

/-- A node of the VCP output XML document built by `_convert_to_vcp`
with `xml.dom.minidom` node constructors. -/
inductive XNode : Type where
  | elem : String → List XNode → XNode
  | text : String → XNode

/-- A filesystem artifact written by the pipeline: a raw binary file
(`_extract_to_raw`) or a VCP XML file (`_convert_to_vcp`). -/
inductive Artifact : Type where
  | rawFile : String → List Nat → Artifact
  | xmlFile : String → XNode → Artifact

/-- The exceptions a single record can raise inside the loop of
`_parse_small_oe_file`: `UnboundLocalError` (a carried-over local used
before any element declared the attribute), the missing-text-child
failure at `childNodes[0].data` (`MalformedRecordError` in the spec),
and `binascii.Error` from `unhexlify` (`DecodeError` in the spec). -/
inductive RunError : Type where
  | unboundLocal : String → RunError
  | malformedRecord : RunError
  | decodeError : RunError

/-- Python `s.replace(",", "")`: one left-to-right pass removing every
comma. -/
def removeComma : List Char → List Char
  | [] => []
  | ',' :: s => removeComma s
  | c :: s => c :: removeComma s

/-- Python `s.replace("0x", "")`: one left-to-right pass removing
non-overlapping occurrences of the two-character substring `0x`. -/
def remove0x : List Char → List Char
  | [] => []
  | '0' :: 'x' :: s => remove0x s
  | c :: s => c :: remove0x s

/-- Python `s.replace("0x00", "")` (line 292): one left-to-right pass
removing non-overlapping occurrences of the four-character substring
`0x00`. -/
def remove0x00 : List Char → List Char
  | [] => []
  | '0' :: 'x' :: '0' :: '0' :: s => remove0x00 s
  | c :: s => c :: remove0x00 s

/-- Does the list contain the substring `0x`? -/
def hasSub0x : List Char → Bool
  | [] => false
  | '0' :: 'x' :: _ => true
  | _ :: s => hasSub0x s

/-- Does the list contain the substring `0x00`? -/
def hasSub0x00 : List Char → Bool
  | [] => false
  | '0' :: 'x' :: '0' :: '0' :: _ => true
  | _ :: s => hasSub0x00 s

/-- The payload normalization used at lines 256-257 and 318-319 of the
source: `dataset.replace("0x", "").replace(",", "")`. -/
def normalizePayload (s : String) : String :=
  String.mk (removeComma (remove0x s.toList))

/-- The diagnostic-address normalization at line 292 of the source:
`diagnostic_address.replace("0x00", "")`. -/
def stripDiagAddress (s : String) : String :=
  String.mk (remove0x00 s.toList)

/-- Number of bytes the UTF-8 encoding of a character occupies; models
the per-character contribution of Python's `s.encode("utf-8")`. -/
def charUtf8Size (c : Char) : Nat :=
  if c.toNat ≤ 127 then 1
  else if c.toNat ≤ 2047 then 2
  else if c.toNat ≤ 65535 then 3
  else 4

/-- `len(s.encode("utf-8"))` for a string given as a character list. -/
def utf8Len (l : List Char) : Nat :=
  (l.map charUtf8Size).sum

/-- Value of one hexadecimal digit character (`0-9`, `a-f`, `A-F`,
char codes 48-57, 97-102, 65-70), `none` otherwise.  These are exactly
the digits `binascii.unhexlify` accepts. -/
def hexVal (c : Char) : Option Nat :=
  if 48 ≤ c.toNat ∧ c.toNat ≤ 57 then some (c.toNat - 48)
  else if 97 ≤ c.toNat ∧ c.toNat ≤ 102 then some (c.toNat - 87)
  else if 65 ≤ c.toNat ∧ c.toNat ≤ 70 then some (c.toNat - 55)
  else none

/-- `binascii.unhexlify` (line 208): decodes a string of hexadecimal
digit pairs into bytes; fails (`binascii.Error`) on odd length or on a
non-hex character. -/
def unhexlifyL : List Char → Option (List Nat)
  | [] => some []
  | [_] => none
  | a :: b :: rest =>
    match hexVal a, hexVal b with
    | some hi, some lo =>
      match unhexlifyL rest with
      | some bs => some ((16 * hi + lo) :: bs)
      | none => none
    | _, _ => none

/-- Python `hex(n)` for a non-negative integer: `0x` followed by the
lowercase hexadecimal digits (line 265 wraps it in `str`, a no-op). -/
def pyHex (n : Nat) : String :=
  "0x" ++ String.mk (Nat.toDigits 16 n)

/-- The size computation of `_convert_to_vcp` (lines 256-261):
`len(dataset_data.replace("0x", "").replace(",", "").encode("utf-8")) // 2`. -/
def vcpSizeCalc (datasetData : String) : Nat :=
  utf8Len (normalizePayload datasetData).toList / 2

/-- The VCP XML document built by `_convert_to_vcp` (lines 219-269). -/
def buildVcpDoc (datasetData startAddress zdcName zdcVersion login : String) : XNode :=
  XNode.elem "SW-CNT"
    [ XNode.elem "IDENT"
        [ XNode.elem "LOGIN" [XNode.text login]
        , XNode.elem "DATEIID" [XNode.text zdcName]
        , XNode.elem "VERSION-INHALT" [XNode.text zdcVersion] ]
    , XNode.elem "DATENBEREICHE"
        [ XNode.elem "DATENBEREICH"
            [ XNode.elem "DATEN-NAME" [XNode.text zdcName]
            , XNode.elem "DATEN-FORMAT-NAME" [XNode.text "DFN_HEX"]
            , XNode.elem "START-ADR" [XNode.text startAddress]
            , XNode.elem "GROESSE-DEKOMPRIMIERT"
                [XNode.text (pyHex (vcpSizeCalc datasetData))]
            , XNode.elem "DATEN" [XNode.text datasetData] ] ] ]

/-- First child element with the given tag. -/
def childTag (tag : String) : XNode → Option XNode
  | XNode.elem _ cs =>
    cs.find? fun c =>
      match c with
      | XNode.elem t _ => t == tag
      | XNode.text _ => false
  | XNode.text _ => none

/-- Text of the element's first child, when that child is a text node. -/
def textOf : XNode → Option String
  | XNode.elem _ (XNode.text s :: _) => some s
  | _ => none

/-- Text of the `GROESSE-DEKOMPRIMIERT` node of a VCP document. -/
def groesseText (doc : XNode) : Option String :=
  ((childTag "DATENBEREICHE" doc).bind (childTag "DATENBEREICH")
    |>.bind (childTag "GROESSE-DEKOMPRIMIERT")).bind textOf

/-- Text of the `DATEN` node of a VCP document. -/
def datenText (doc : XNode) : Option String :=
  ((childTag "DATENBEREICHE" doc).bind (childTag "DATENBEREICH")
    |>.bind (childTag "DATEN")).bind textOf

/-- Text of the `START-ADR` node of a VCP document. -/
def startAdrText (doc : XNode) : Option String :=
  ((childTag "DATENBEREICHE" doc).bind (childTag "DATENBEREICH")
    |>.bind (childTag "START-ADR")).bind textOf

/-- The output path of an artifact. -/
def artifactPath : Artifact → String
  | Artifact.rawFile p _ => p
  | Artifact.xmlFile p _ => p

/-- The `START-ADR` value carried by a structured-mode artifact. -/
def artifactStartAdr : Artifact → Option String
  | Artifact.xmlFile _ doc => startAdrText doc
  | Artifact.rawFile _ _ => none

/-- `START-ADR` value of the artifact at position `i` of a list. -/
def artifactListStartAdr (l : List Artifact) (i : Nat) : Option String :=
  match l[i]? with
  | some a => artifactStartAdr a
  | none => none

/-- The attribute-reading phase of one loop iteration of
`_parse_small_oe_file` (lines 290-311).  Each of the five `if
parameter_data.hasAttribute(...)` blocks overwrites its local variable
only when the attribute is present; the diagnostic address is passed
through `replace("0x00", "")`.  When `LOGIN` is present, `filename` is
recomputed from the (just updated) `start_address` and `zdc_name`
locals; if either is still unbound, Python raises
`UnboundLocalError` at line 311 (evaluation order: `start_address`
first). -/
def applyAttrs (filePrefix : String) (st : ParseState) (e : OdisElement) :
    ParseState × Option RunError :=
  let st1 : ParseState := { st with
    diagnosticAddress :=
      match e.diagnosticAddress with
      | some v => some (stripDiagAddress v)
      | none => st.diagnosticAddress,
    startAddress :=
      match e.startAddress with
      | some v => some v
      | none => st.startAddress,
    zdcName :=
      match e.zdcName with
      | some v => some v
      | none => st.zdcName,
    zdcVersion :=
      match e.zdcVersion with
      | some v => some v
      | none => st.zdcVersion,
    login :=
      match e.login with
      | some v => some v
      | none => st.login }
  match e.login with
  | none => (st1, none)
  | some _ =>
    match st1.startAddress, st1.zdcName with
    | some sa, some zn =>
      ({ st1 with filename := some (sa ++ " " ++ zn ++ " - " ++ filePrefix) }, none)
    | none, _ => (st1, some (RunError.unboundLocal "start_address"))
    | some _, none => (st1, some (RunError.unboundLocal "zdc_name"))

/-- The conversion phase of one loop iteration (lines 313-322 plus the
called converter).  `dataset_counter` is incremented before the payload
is read; an element without a text child then raises
(`MalformedRecordError`).  In raw mode the payload is normalized, the
call arguments `filename` and `diagnostic_address` are evaluated (an
unbound one raises), `extracted_dataset_counter` is incremented at the
top of `_extract_to_raw`, and only then does `unhexlify` run — so a
decode failure happens after the increment.  In every other mode
`_convert_to_vcp` is called; its seven arguments are evaluated
left-to-right, `extracted_dataset_counter` is incremented, and the VCP
document is built from the unnormalized payload. -/
def convertPhase (mode : String) (st : ParseState) (e : OdisElement) :
    Except (ParseState × RunError) (ParseState × Artifact) :=
  let st1 : ParseState := { st with datasetCounter := st.datasetCounter + 1 }
  match e.payload with
  | none => Except.error (st1, RunError.malformedRecord)
  | some payloadText =>
    if mode = "raw" then
      let dataset := normalizePayload payloadText
      match st1.filename with
      | none => Except.error (st1, RunError.unboundLocal "filename")
      | some fn =>
        match st1.diagnosticAddress with
        | none => Except.error (st1, RunError.unboundLocal "diagnostic_address")
        | some da =>
          let st2 : ParseState := { st1 with extractedCounter := st1.extractedCounter + 1 }
          match unhexlifyL dataset.toList with
          | none => Except.error (st2, RunError.decodeError)
          | some bytes => Except.ok (st2, Artifact.rawFile (da ++ " " ++ fn ++ ".bin") bytes)
    else
      match st1.diagnosticAddress with
      | none => Except.error (st1, RunError.unboundLocal "diagnostic_address")
      | some da =>
        match st1.startAddress with
        | none => Except.error (st1, RunError.unboundLocal "start_address")
        | some sa =>
          match st1.zdcName with
          | none => Except.error (st1, RunError.unboundLocal "zdc_name")
          | some zn =>
            match st1.zdcVersion with
            | none => Except.error (st1, RunError.unboundLocal "zdc_version")
            | some zv =>
              match st1.login with
              | none => Except.error (st1, RunError.unboundLocal "login")
              | some lg =>
                match st1.filename with
                | none => Except.error (st1, RunError.unboundLocal "filename")
                | some fn =>
                  let st2 : ParseState :=
                    { st1 with extractedCounter := st1.extractedCounter + 1 }
                  Except.ok (st2, Artifact.xmlFile (da ++ " VCP " ++ fn ++ ".xml")
                    (buildVcpDoc payloadText sa zn zv lg))

/-- One full loop iteration of `_parse_small_oe_file` for one
`PARAMETER_DATA` element. -/
def processElement (mode filePrefix : String) (st : ParseState) (e : OdisElement) :
    Except (ParseState × RunError) (ParseState × Artifact) :=
  match applyAttrs filePrefix st e with
  | (st1, some err) => Except.error (st1, err)
  | (st1, none) => convertPhase mode st1 e

/-- The `for parameter_data in parameter_datas` loop: processes the
elements in document order, collecting the written artifacts, and stops
at the first raised exception (there is no per-record recovery). -/
def runLoop (mode filePrefix : String) :
    List OdisElement → ParseState → ParseState × List Artifact × Option RunError
  | [], st => (st, [], none)
  | e :: es, st =>
    match processElement mode filePrefix st e with
    | Except.error (st1, err) => (st1, [], some err)
    | Except.ok (st1, a) =>
      match runLoop mode filePrefix es st1 with
      | (st2, arts, err) => (st2, a :: arts, err)

/-- The fresh state at entry of `_parse_small_oe_file`: all six locals
unbound, the two global counters at their current values. -/
def initState (total0 converted0 : Nat) : ParseState :=
  ⟨none, none, none, none, none, none, total0, converted0⟩

/-- Outcome of one invocation of `_run`: the values of the global
counters afterwards (the summary line logs `extracted_dataset_counter`
of `dataset_counter`), the artifacts written, and whether the run ended
in the `except` branch that logs `Fatal error` instead of a summary. -/
structure RunResult where
  totalRecords : Nat
  convertedRecords : Nat
  artifacts : List Artifact
  fatalError : Bool

/-- `_run(file_output_format, description, path)` on an already parsed
document, given the values of the two global counters at entry
(`total0`, `converted0`): Python initializes them to `0` when the
module loads and never resets them, so they are whatever earlier
invocations in the same process left behind. -/
def runPipeline (mode description : String) (elems : List OdisElement)
    (total0 converted0 : Nat) : RunResult :=
  match runLoop mode description elems (initState total0 converted0) with
  | (st, arts, err) => ⟨st.datasetCounter, st.extractedCounter, arts, err.isSome⟩

/-- The most recently declared `START_ADDRESS` attribute value in a
list of elements, starting from a previously carried value. -/
def lastStartAux : List OdisElement → Option String → Option String
  | [], acc => acc
  | e :: es, acc =>
    lastStartAux es
      (match e.startAddress with
       | some v => some v
       | none => acc)

/-- A sample element declaring all five attributes, with payload
`0x0A,0xFF`. -/
def elemFull : OdisElement :=
  { diagnosticAddress := some "0x0017"
    startAddress := some "0x2000"
    zdcName := some "ZDC1"
    zdcVersion := some "0001"
    login := some "20103"
    payload := some "0x0A,0xFF" }

/-- A sample element declaring no attribute at all, with payload
`0xBB`. -/
def elemCarry : OdisElement :=
  { diagnosticAddress := none
    startAddress := none
    zdcName := none
    zdcVersion := none
    login := none
    payload := some "0xBB" }

/-- A sample element declaring all five attributes but having no text
child. -/
def elemNoPayload : OdisElement :=
  { diagnosticAddress := some "0x0017"
    startAddress := some "0x2000"
    zdcName := some "ZDC1"
    zdcVersion := some "0001"
    login := some "20103"
    payload := none }

/-- A sample element with one-letter attribute values, used to exhibit
the exact output-path composition. -/
def elemPath : OdisElement :=
  { diagnosticAddress := some "A"
    startAddress := some "S"
    zdcName := some "Z"
    zdcVersion := some "V"
    login := some "L"
    payload := some "0xAB" }

/-- The parser state after processing `elemFull` with description `D`
from a fresh state with zeroed counters (in either output mode). -/
def stAfterFull : ParseState :=
  ⟨some "17", some "0x2000", some "ZDC1", some "0001", some "20103",
    some "0x2000 ZDC1 - D", 1, 1⟩

/-- The structured-mode artifact produced for `elemFull` with
description `D`. -/
def artFullVcp : Artifact :=
  Artifact.xmlFile "17 VCP 0x2000 ZDC1 - D.xml"
    (buildVcpDoc "0x0A,0xFF" "0x2000" "ZDC1" "0001" "20103")

/-- The raw-mode artifact produced for `elemFull` with description
`D`. -/
def artFullRaw : Artifact :=
  Artifact.rawFile "17 0x2000 ZDC1 - D.bin" [10, 255]

theorem mk_toList (l : List Char) : (String.mk l).toList = l := rfl

theorem removeComma_not_mem (l : List Char) : ',' ∉ removeComma l := by
  induction l using removeComma.induct <;> simp_all [removeComma, eq_comm]

theorem removeComma_of_not_mem (l : List Char) (h : ',' ∉ l) : removeComma l = l := by
  induction l using removeComma.induct <;> simp_all [removeComma]

theorem remove0x_of_not_hasSub (l : List Char) (h : hasSub0x l = false) :
    remove0x l = l := by
  induction l using remove0x.induct <;> simp_all [remove0x, hasSub0x]

theorem remove0x00_of_not_hasSub (l : List Char) (h : hasSub0x00 l = false) :
    remove0x00 l = l := by
  induction l using remove0x00.induct <;> simp_all [remove0x00, hasSub0x00]

theorem charUtf8Size_of_hexVal (c : Char) (h : (hexVal c).isSome) :
    charUtf8Size c = 1 := by
  unfold hexVal at h
  unfold charUtf8Size
  split_ifs at h ⊢ <;> first | rfl | omega | simp at h

theorem unhexlifyL_spec (l : List Char) :
    ∀ bs, unhexlifyL l = some bs → l.length = 2 * bs.length ∧ utf8Len l = l.length := by
  induction l using unhexlifyL.induct with
  | case1 =>
    intro bs h
    simp only [unhexlifyL, Option.some.injEq] at h
    subst h
    simp [utf8Len]
  | case2 c =>
    intro bs h
    simp [unhexlifyL] at h
  | case3 a b rest hi lo hb ha bs2 hrest ih =>
    intro bs h
    simp only [unhexlifyL, ha, hb, hrest, Option.some.injEq] at h
    subst h
    obtain ⟨hlen, hutf⟩ := ih bs2 hrest
    have h1 : charUtf8Size a = 1 := charUtf8Size_of_hexVal a (by simp [ha])
    have h2 : charUtf8Size b = 1 := charUtf8Size_of_hexVal b (by simp [hb])
    constructor
    · simp only [List.length_cons, hlen]
      omega
    · simp only [utf8Len, List.map_cons, List.sum_cons, List.length_cons, h1, h2]
      simp only [utf8Len] at hutf
      omega
  | case4 a b rest hi lo hb ha hrest ih =>
    intro bs h
    simp only [unhexlifyL, ha, hb, hrest] at h
    simp at h
  | case5 a b rest hno =>
    intro bs h
    simp only [unhexlifyL] at h
    simp at h

theorem applyAttrs_fields (fp : String) (st : ParseState) (e : OdisElement) :
    (applyAttrs fp st e).1.diagnosticAddress
        = (match e.diagnosticAddress with
           | some v => some (stripDiagAddress v)
           | none => st.diagnosticAddress) ∧
    (applyAttrs fp st e).1.startAddress
        = (match e.startAddress with
           | some v => some v
           | none => st.startAddress) ∧
    (applyAttrs fp st e).1.zdcName
        = (match e.zdcName with
           | some v => some v
           | none => st.zdcName) ∧
    (applyAttrs fp st e).1.zdcVersion
        = (match e.zdcVersion with
           | some v => some v
           | none => st.zdcVersion) ∧
    (applyAttrs fp st e).1.login
        = (match e.login with
           | some v => some v
           | none => st.login) ∧
    (applyAttrs fp st e).1.datasetCounter = st.datasetCounter ∧
    (applyAttrs fp st e).1.extractedCounter = st.extractedCounter := by
  unfold applyAttrs
  cases e.login with
  | none => exact ⟨rfl, rfl, rfl, rfl, rfl, rfl, rfl⟩
  | some lg =>
    dsimp only
    split
    · exact ⟨rfl, rfl, rfl, rfl, rfl, rfl, rfl⟩
    · exact ⟨rfl, rfl, rfl, rfl, rfl, rfl, rfl⟩
    · exact ⟨rfl, rfl, rfl, rfl, rfl, rfl, rfl⟩

theorem convertPhase_ok_state (mode : String) (st st2 : ParseState) (e : OdisElement)
    (a : Artifact) (h : convertPhase mode st e = Except.ok (st2, a)) :
    st2.diagnosticAddress = st.diagnosticAddress ∧
    st2.startAddress = st.startAddress ∧
    st2.zdcName = st.zdcName ∧
    st2.zdcVersion = st.zdcVersion ∧
    st2.login = st.login ∧
    st2.filename = st.filename ∧
    st2.datasetCounter = st.datasetCounter + 1 ∧
    st2.extractedCounter = st.extractedCounter + 1 := by
  unfold convertPhase at h
  dsimp only at h
  repeat' split at h
  all_goals try exact Except.noConfusion h
  all_goals
    injection h with h'
    injection h' with h1 h2
    subst h1
    exact ⟨rfl, rfl, rfl, rfl, rfl, rfl, rfl, rfl⟩

theorem startAdrText_buildVcpDoc (p sa zn zv lg : String) :
    startAdrText (buildVcpDoc p sa zn zv lg) = some sa := rfl

theorem groesseText_buildVcpDoc (p sa zn zv lg : String) :
    groesseText (buildVcpDoc p sa zn zv lg) = some (pyHex (vcpSizeCalc p)) := rfl

theorem datenText_buildVcpDoc (p sa zn zv lg : String) :
    datenText (buildVcpDoc p sa zn zv lg) = some p := rfl

theorem convertPhase_vcp_startAdr (mode : String) (hm : ¬ mode = "raw")
    (st st2 : ParseState) (e : OdisElement) (a : Artifact)
    (h : convertPhase mode st e = Except.ok (st2, a)) :
    artifactStartAdr a = st.startAddress := by
  unfold convertPhase at h
  dsimp only at h
  simp only [if_neg hm] at h
  repeat' split at h
  all_goals try exact Except.noConfusion h
  all_goals
    injection h with h'
    injection h' with h1 h2
    subst h2
    simp_all [artifactStartAdr, startAdrText_buildVcpDoc]

theorem processElement_ok_fields (mode fp : String) (st : ParseState) (e : OdisElement)
    (st' : ParseState) (a : Artifact) (h : processElement mode fp st e = Except.ok (st', a)) :
    st'.diagnosticAddress
        = (match e.diagnosticAddress with
           | some v => some (stripDiagAddress v)
           | none => st.diagnosticAddress) ∧
    st'.startAddress
        = (match e.startAddress with
           | some v => some v
           | none => st.startAddress) ∧
    st'.zdcName
        = (match e.zdcName with
           | some v => some v
           | none => st.zdcName) ∧
    st'.zdcVersion
        = (match e.zdcVersion with
           | some v => some v
           | none => st.zdcVersion) ∧
    st'.login
        = (match e.login with
           | some v => some v
           | none => st.login) ∧
    st'.datasetCounter = st.datasetCounter + 1 ∧
    st'.extractedCounter = st.extractedCounter + 1 := by
  unfold processElement at h
  obtain ⟨hd, hs, hn, hv, hl, hdc, hec⟩ := applyAttrs_fields fp st e
  cases hAp : applyAttrs fp st e with
  | mk st1 oerr =>
    simp only [hAp] at h hd hs hn hv hl hdc hec
    cases oerr with
    | some err => exact Except.noConfusion h
    | none =>
      obtain ⟨cd, cs, cn, cv, cl, cf, cdc, cec⟩ := convertPhase_ok_state mode st1 st' e a h
      exact ⟨cd.trans hd, cs.trans hs, cn.trans hn, cv.trans hv, cl.trans hl,
        by rw [cdc, hdc], by rw [cec, hec]⟩

theorem processElement_vcp_startAdr (fp : String) (st : ParseState) (e : OdisElement)
    (st' : ParseState) (a : Artifact) (h : processElement "vcp" fp st e = Except.ok (st', a))
    (hsNone : e.startAddress = none) : artifactStartAdr a = st.startAddress := by
  unfold processElement at h
  obtain ⟨_, hsa, _, _, _, _, _⟩ := applyAttrs_fields fp st e
  cases hAp : applyAttrs fp st e with
  | mk st1 oerr =>
    simp only [hAp] at h hsa
    cases oerr with
    | some err => exact Except.noConfusion h
    | none =>
      rw [hsNone] at hsa
      exact (convertPhase_vcp_startAdr "vcp" (by decide) st1 st' e a h).trans hsa

theorem processElement_no_payload (mode fp : String) (st : ParseState) (e : OdisElement)
    (hp : e.payload = none) :
    ∃ st1 err, processElement mode fp st e = Except.error (st1, err) ∧
      st1.extractedCounter = st.extractedCounter := by
  unfold processElement
  obtain ⟨_, _, _, _, _, _, hec⟩ := applyAttrs_fields fp st e
  cases hAp : applyAttrs fp st e with
  | mk st1 oerr =>
    simp only [hAp] at hec ⊢
    cases oerr with
    | some err => exact ⟨st1, err, rfl, hec⟩
    | none =>
      refine ⟨{ st1 with datasetCounter := st1.datasetCounter + 1 },
        RunError.malformedRecord, ?_, hec⟩
      unfold convertPhase
      dsimp only
      rw [hp]

theorem runLoop_split (mode fp : String) (xs ys : List OdisElement) :
    ∀ st,
      (∃ st1 arts1, runLoop mode fp xs st = (st1, arts1, none) ∧
        runLoop mode fp (xs ++ ys) st =
          ((runLoop mode fp ys st1).1,
            arts1 ++ (runLoop mode fp ys st1).2.1,
            (runLoop mode fp ys st1).2.2)) ∨
      (∃ st1 arts1 err, runLoop mode fp xs st = (st1, arts1, some err) ∧
        runLoop mode fp (xs ++ ys) st = (st1, arts1, some err)) := by
  induction xs with
  | nil =>
    intro st
    left
    exact ⟨st, [], rfl, by simp [runLoop]⟩
  | cons e es ih =>
    intro st
    rw [List.cons_append]
    cases hpe : processElement mode fp st e with
    | error p =>
      rcases p with ⟨st1, err⟩
      right
      refine ⟨st1, [], err, ?_, ?_⟩ <;> simp [runLoop, hpe]
    | ok p =>
      rcases p with ⟨st1, a⟩
      rcases ih st1 with ⟨stm, artsm, hm, hfull⟩ | ⟨stm, artsm, errm, hm, hfull⟩
      · left
        refine ⟨stm, a :: artsm, ?_, ?_⟩
        · simp [runLoop, hpe, hm]
        · simp [runLoop, hpe, hfull]
      · right
        refine ⟨stm, a :: artsm, errm, ?_, ?_⟩
        · simp [runLoop, hpe, hm]
        · simp [runLoop, hpe, hfull]

theorem runLoop_ok (mode fp : String) (elems : List OdisElement) :
    ∀ st st' arts, runLoop mode fp elems st = (st', arts, none) →
      st'.datasetCounter = st.datasetCounter + elems.length ∧
      st'.extractedCounter = st.extractedCounter + arts.length ∧
      arts.length = elems.length ∧
      st'.startAddress = lastStartAux elems st.startAddress := by
  induction elems with
  | nil =>
    intro st st' arts h
    simp only [runLoop, Prod.mk.injEq] at h
    obtain ⟨h1, h2, h3⟩ := h
    subst h1
    subst h2
    simp [lastStartAux]
  | cons e es ih =>
    intro st st' arts h
    cases hpe : processElement mode fp st e with
    | error p =>
      rcases p with ⟨st1, err⟩
      simp [runLoop, hpe] at h
    | ok p =>
      rcases p with ⟨st1, a⟩
      rcases hr : runLoop mode fp es st1 with ⟨st2, p2⟩
      rcases p2 with ⟨arts2, err2⟩
      simp only [runLoop, hpe, hr, Prod.mk.injEq] at h
      obtain ⟨h1, h2, h3⟩ := h
      subst h1
      subst h2
      subst h3
      obtain ⟨i1, i2, i3, i4⟩ := ih st1 st2 arts2 hr
      obtain ⟨f1, f2, f3, f4, f5, f6, f7⟩ := processElement_ok_fields mode fp st e st1 a hpe
      refine ⟨?_, ?_, ?_, ?_⟩
      · rw [i1, f6]
        simp only [List.length_cons]
        omega
      · rw [i2, f7]
        simp only [List.length_cons]
        omega
      · simp [i3]
      · rw [i4]
        simp only [lastStartAux]
        rw [f2]

theorem applyAttrs_all (fp : String) (st : ParseState) (e : OdisElement)
    (da sa zn zv lg : String)
    (h1 : e.diagnosticAddress = some da) (h2 : e.startAddress = some sa)
    (h3 : e.zdcName = some zn) (h4 : e.zdcVersion = some zv)
    (h5 : e.login = some lg) :
    applyAttrs fp st e =
      ({ st with
          diagnosticAddress := some (stripDiagAddress da)
          startAddress := some sa
          zdcName := some zn
          zdcVersion := some zv
          login := some lg
          filename := some (sa ++ " " ++ zn ++ " - " ++ fp) }, none) := by
  unfold applyAttrs
  rw [h1, h2, h3, h4, h5]

theorem convertPhase_raw_path (st st2 : ParseState) (e : OdisElement) (a : Artifact)
    (p fn da : String) (hp : e.payload = some p) (hfn : st.filename = some fn)
    (hda : st.diagnosticAddress = some da)
    (h : convertPhase "raw" st e = Except.ok (st2, a)) :
    artifactPath a = da ++ " " ++ fn ++ ".bin" := by
  unfold convertPhase at h
  dsimp only at h
  simp only [hp, hfn, hda, reduceIte] at h
  rcases hu : unhexlifyL (normalizePayload p).toList with _ | bytes
  · simp only [hu] at h
    exact Except.noConfusion h
  · simp only [hu] at h
    injection h with h'
    injection h' with ha hb
    subst hb
    rfl

theorem convertPhase_vcp_path (st st2 : ParseState) (e : OdisElement) (a : Artifact)
    (p da sa zn zv lg fn : String) (hp : e.payload = some p)
    (hda : st.diagnosticAddress = some da) (hsa : st.startAddress = some sa)
    (hzn : st.zdcName = some zn) (hzv : st.zdcVersion = some zv)
    (hlg : st.login = some lg) (hfn : st.filename = some fn)
    (h : convertPhase "vcp" st e = Except.ok (st2, a)) :
    artifactPath a = da ++ " VCP " ++ fn ++ ".xml" := by
  unfold convertPhase at h
  dsimp only at h
  simp only [hp, hda, hsa, hzn, hzv, hlg, hfn, reduceIte] at h
  injection h with h'
  injection h' with ha hb
  subst hb
  rfl

theorem convertPhase_vcp_shape (mode : String) (hm : ¬ mode = "raw")
    (st st2 : ParseState) (e : OdisElement) (a : Artifact)
    (h : convertPhase mode st e = Except.ok (st2, a)) :
    ∃ path p sa zn zv lg, e.payload = some p ∧
      a = Artifact.xmlFile path (buildVcpDoc p sa zn zv lg) := by
  unfold convertPhase at h
  dsimp only at h
  simp only [if_neg hm] at h
  repeat' split at h
  all_goals try exact Except.noConfusion h
  all_goals
    injection h with h'
    injection h' with h1 h2
    subst h2
    refine ⟨_, _, _, _, _, _, ?_, rfl⟩
    assumption

theorem processElement_vcp_shape (fp : String) (st : ParseState) (e : OdisElement)
    (st' : ParseState) (a : Artifact)
    (h : processElement "vcp" fp st e = Except.ok (st', a)) :
    ∃ path p sa zn zv lg, e.payload = some p ∧
      a = Artifact.xmlFile path (buildVcpDoc p sa zn zv lg) := by
  unfold processElement at h
  cases hAp : applyAttrs fp st e with
  | mk st1 oerr =>
    simp only [hAp] at h
    cases oerr with
    | some err => exact Except.noConfusion h
    | none => exact convertPhase_vcp_shape "vcp" (by decide) st1 st' e a h

/-- C4 counterexample: the claim says the stored diagnosticAddress is the
attribute value with a fixed two-character prefix stripped if present and
otherwise unchanged.  The code instead removes every occurrence of the
four-character substring `0x00` anywhere in the value: for the attribute
value `AB0x00CD` the stored address is `ABCD`, which is neither the value
unchanged nor the value with its first two characters stripped. -/
theorem C4_counterexample_not_prefix_strip :
    stripDiagAddress "AB0x00CD" = "ABCD" ∧
    ("ABCD" : String) ≠ "AB0x00CD" ∧
    ("ABCD" : String) ≠ String.drop "AB0x00CD" 2 := by decide

/-- C4 amended: for every record element carrying a DIAGNOSTIC_ADDRESS
attribute, the stored diagnosticAddress equals the attribute value with
the occurrences of the four-character substring `0x00` removed in one
left-to-right non-overlapping pass (Python `replace("0x00", "")`); a
value containing no such occurrence is stored unchanged. -/
theorem C4_amended_diag_normalization :
    (∀ fp st e v, e.diagnosticAddress = some v →
      (applyAttrs fp st e).1.diagnosticAddress = some (stripDiagAddress v)) ∧
    (∀ v : String, hasSub0x00 v.toList = false → stripDiagAddress v = v) := by
  constructor
  · intro fp st e v hv
    obtain ⟨hd, _, _, _, _, _, _⟩ := applyAttrs_fields fp st e
    rw [hv] at hd
    exact hd
  · intro v hv
    unfold stripDiagAddress
    rw [remove0x00_of_not_hasSub v.toList hv]
    rfl

/-- C4 witness: the amended statement at the concrete attribute values
`A` (stored as `stripDiagAddress "A"`) and `AB12` (no `0x00` occurrence,
stored unchanged). -/
theorem C4_amended_diag_normalization_witness :
    (applyAttrs "D" (initState 0 0) elemPath).1.diagnosticAddress
        = some (stripDiagAddress "A") ∧
    stripDiagAddress "AB12" = "AB12" :=
  ⟨C4_amended_diag_normalization.1 "D" (initState 0 0) elemPath "A" rfl,
   C4_amended_diag_normalization.2 "AB12" (by decide)⟩

/-- C6 counterexample: normalization (remove `0x` substrings, then remove
commas) is not idempotent: comma removal can create a new `0x` occurrence.
For `p = "0,x"` one pass gives `0x` and a second pass gives the empty
string. -/
theorem C6_counterexample_not_idempotent :
    normalizePayload "0,x" = "0x" ∧
    normalizePayload (normalizePayload "0,x") = "" ∧
    normalizePayload (normalizePayload "0,x") ≠ normalizePayload "0,x" := by decide

/-- C6 amended: normalization is idempotent on every payload whose
normalized form contains no `0x` substring (in particular on every payload
that normalizes to a plain hex-digit string); in general the comma pass can
create new `0x` occurrences, and a second normalization removes them. -/
theorem C6_amended_idempotent_without_0x (p : String)
    (h : hasSub0x (normalizePayload p).toList = false) :
    normalizePayload (normalizePayload p) = normalizePayload p := by
  have h1 : remove0x (removeComma (remove0x p.toList))
      = removeComma (remove0x p.toList) :=
    remove0x_of_not_hasSub _ h
  have h2 : removeComma (removeComma (remove0x p.toList))
      = removeComma (remove0x p.toList) :=
    removeComma_of_not_mem _ (removeComma_not_mem _)
  show String.mk (removeComma (remove0x
      (String.mk (removeComma (remove0x p.toList))).toList))
    = String.mk (removeComma (remove0x p.toList))
  rw [mk_toList, h1, h2]

/-- C6 witness: the amended statement at the concrete payload
`0x0A,0xFF`, whose normalized form `0AFF` contains no `0x`. -/
theorem C6_amended_idempotent_without_0x_witness :
    normalizePayload (normalizePayload "0x0A,0xFF") = normalizePayload "0x0A,0xFF" :=
  C6_amended_idempotent_without_0x "0x0A,0xFF" (by decide)

/-- C5: structured-mode output shape.  For every record converted in
structured mode, the GROESSE-DEKOMPRIMIERT node text is the lowercase
hexadecimal rendering, with a `0x` prefix (`pyHex`), of the length of the
payload after stripping `0x` substrings and commas — the length of its
UTF-8 encoding, as the code computes it — divided by 2, while the DATEN
node text is the original payload with no stripping applied.  In
particular payload `0x0A,0xFF` yields GROESSE-DEKOMPRIMIERT `0x2` and
DATEN `0x0A,0xFF`. -/
theorem C5_structured_output_shape :
    (∀ p sa zn zv lg, groesseText (buildVcpDoc p sa zn zv lg)
        = some (pyHex (utf8Len (normalizePayload p).toList / 2)) ∧
      datenText (buildVcpDoc p sa zn zv lg) = some p) ∧
    (∀ fp st e st' a p, e.payload = some p →
      processElement "vcp" fp st e = Except.ok (st', a) →
      ∃ path doc, a = Artifact.xmlFile path doc ∧
        groesseText doc = some (pyHex (utf8Len (normalizePayload p).toList / 2)) ∧
        datenText doc = some p) ∧
    groesseText (buildVcpDoc "0x0A,0xFF" "S" "Z" "V" "L") = some "0x2" ∧
    datenText (buildVcpDoc "0x0A,0xFF" "S" "Z" "V" "L") = some "0x0A,0xFF" := by
  refine ⟨fun p sa zn zv lg => ⟨rfl, rfl⟩, ?_, by decide, by decide⟩
  intro fp st e st' a p hp h
  obtain ⟨path, p2, sa, zn, zv, lg, hp2, ha⟩ := processElement_vcp_shape fp st e st' a h
  rw [hp] at hp2
  injection hp2 with hpp
  subst hpp
  subst ha
  exact ⟨path, buildVcpDoc p sa zn zv lg, rfl, groesseText_buildVcpDoc p sa zn zv lg,
    datenText_buildVcpDoc p sa zn zv lg⟩

/-- C5 witness: the conversion of `elemFull` in structured mode, whose
artifact carries GROESSE-DEKOMPRIMIERT `0x2` and the original payload. -/
theorem C5_structured_output_shape_witness :
    ∃ path doc, artFullVcp = Artifact.xmlFile path doc ∧
      groesseText doc = some (pyHex (utf8Len (normalizePayload "0x0A,0xFF").toList / 2)) ∧
      datenText doc = some "0x0A,0xFF" :=
  C5_structured_output_shape.2.1 "D" (initState 0 0) elemFull stAfterFull artFullVcp
    "0x0A,0xFF" rfl rfl

/-- C7: raw-mode decode is the inverse of structured-mode's size
computation: whenever the normalized payload decodes (even number of hex
digits), the byte count of the decoded binary equals the numeric size
value `_convert_to_vcp` writes, and the GROESSE-DEKOMPRIMIERT field of
the structured document for the same payload renders exactly that
count. -/
theorem C7_decode_length_matches_size (p : String) (bs : List Nat)
    (h : unhexlifyL (normalizePayload p).toList = some bs) :
    bs.length = vcpSizeCalc p ∧
    ∀ sa zn zv lg, groesseText (buildVcpDoc p sa zn zv lg) = some (pyHex bs.length) := by
  obtain ⟨hlen, hutf⟩ := unhexlifyL_spec (normalizePayload p).toList bs h
  have hsz : bs.length = vcpSizeCalc p := by
    unfold vcpSizeCalc
    rw [hutf, hlen]
    omega
  refine ⟨hsz, fun sa zn zv lg => ?_⟩
  rw [groesseText_buildVcpDoc, hsz]

/-- C7 witness: payload `0x0A,0xFF` decodes to the two bytes `0x0A 0xFF`
and the structured size field is `pyHex 2 = "0x2"`. -/
theorem C7_decode_length_matches_size_witness :
    List.length [10, 255] = vcpSizeCalc "0x0A,0xFF" ∧
    groesseText (buildVcpDoc "0x0A,0xFF" "S" "Z" "V" "L")
      = some (pyHex (List.length [10, 255])) :=
  ⟨(C7_decode_length_matches_size "0x0A,0xFF" [10, 255] (by decide)).1,
   (C7_decode_length_matches_size "0x0A,0xFF" [10, 255] (by decide)).2 "S" "Z" "V" "L"⟩

/-- C10: the structured-mode size is the UTF-8 byte length of the
normalized payload floor-divided by 2: an odd-length normalized payload
rounds down instead of failing (`0xA` normalizes to the single digit `A`
and yields size `0x0`), and a non-ASCII character contributes its UTF-8
byte count, not 1 (the one-character payload `é` has UTF-8 length 2 and
yields size `0x1`). -/
theorem C10_size_utf8_floor :
    (∀ p sa zn zv lg, groesseText (buildVcpDoc p sa zn zv lg)
        = some (pyHex (utf8Len (normalizePayload p).toList / 2))) ∧
    (normalizePayload "0xA").toList.length = 1 ∧
    utf8Len (normalizePayload "0xA").toList = 1 ∧
    groesseText (buildVcpDoc "0xA" "S" "Z" "V" "L") = some "0x0" ∧
    ("é" : String).toList.length = 1 ∧
    utf8Len ("é" : String).toList = 2 ∧
    normalizePayload "é" = "é" ∧
    groesseText (buildVcpDoc "é" "S" "Z" "V" "L") = some "0x1" :=
  ⟨fun p sa zn zv lg => rfl, by decide, by decide, by decide, by decide,
    by decide, by decide, by decide⟩

/-- C2 counterexample: the counters are module-level globals that are
never reset by `_run`.  Running the same one-record document twice in one
process (the second run starting from the counter values the first run
left behind) makes the second summary report 2 of 2 datasets, although
that invocation's input document has exactly one record — the summary
does not reflect only that invocation's input. -/
theorem C2_counterexample_counters_not_reset :
    (runPipeline "vcp" "D" [elemFull] 0 0).totalRecords = 1 ∧
    (runPipeline "vcp" "D" [elemFull] 0 0).convertedRecords = 1 ∧
    (runPipeline "vcp" "D" [elemFull]
        (runPipeline "vcp" "D" [elemFull] 0 0).totalRecords
        (runPipeline "vcp" "D" [elemFull] 0 0).convertedRecords).fatalError = false ∧
    (runPipeline "vcp" "D" [elemFull]
        (runPipeline "vcp" "D" [elemFull] 0 0).totalRecords
        (runPipeline "vcp" "D" [elemFull] 0 0).convertedRecords).totalRecords = 2 ∧
    (runPipeline "vcp" "D" [elemFull]
        (runPipeline "vcp" "D" [elemFull] 0 0).totalRecords
        (runPipeline "vcp" "D" [elemFull] 0 0).convertedRecords).convertedRecords = 2 ∧
    List.length [elemFull] = 1 := by decide

/-- C2 amended: `dataset_counter` and `extracted_dataset_counter` are
module globals initialized to zero once at process start and never reset;
an invocation of the entry point adds its own document's counts on top of
whatever values earlier invocations in the same process left, so only an
invocation starting from zeroed counters reports exactly its own input
document. -/
theorem C2_amended_counters_accumulate (mode fp : String) (elems : List OdisElement)
    (t0 c0 : Nat) (h : (runPipeline mode fp elems t0 c0).fatalError = false) :
    (runPipeline mode fp elems t0 c0).totalRecords = t0 + elems.length ∧
    (runPipeline mode fp elems t0 c0).convertedRecords
      = c0 + (runPipeline mode fp elems t0 c0).artifacts.length := by
  unfold runPipeline at h ⊢
  rcases hr : runLoop mode fp elems (initState t0 c0) with ⟨st, p⟩
  rcases p with ⟨arts, err⟩
  simp only [hr] at h ⊢
  cases err with
  | some e => simp at h
  | none =>
    obtain ⟨i1, i2, _, _⟩ := runLoop_ok mode fp elems (initState t0 c0) st arts hr
    simp only [initState] at i1 i2
    exact ⟨i1, i2⟩

/-- C2 witness: the amended statement for a one-record document starting
from counters 5 and 3. -/
theorem C2_amended_counters_accumulate_witness :
    (runPipeline "vcp" "D" [elemFull] 5 3).totalRecords = 5 + List.length [elemFull] ∧
    (runPipeline "vcp" "D" [elemFull] 5 3).convertedRecords
      = 3 + (runPipeline "vcp" "D" [elemFull] 5 3).artifacts.length :=
  C2_amended_counters_accumulate "vcp" "D" [elemFull] 5 3 (by decide)

/-- C3 counterexample: with diagnosticAddress `A`, startAddress `S`,
zdcName `Z` and description `D`, the raw path is `A S Z - D.bin` and the
structured path is `A VCP S Z - D.xml`: the joiner between startAddress
and zdcName is a single space, so the paths differ from the ones the
claim composes by joining startAddress, zdcName and the description with
`" - "` throughout. -/
theorem C3_counterexample_prefix_join :
    (runPipeline "raw" "D" [elemPath] 0 0).artifacts.map artifactPath
        = ["A S Z - D.bin"] ∧
    (runPipeline "vcp" "D" [elemPath] 0 0).artifacts.map artifactPath
        = ["A VCP S Z - D.xml"] ∧
    ("A S Z - D.bin" : String)
        ≠ "A" ++ " " ++ ("S" ++ " - " ++ "Z" ++ " - " ++ "D") ++ ".bin" ∧
    ("A VCP S Z - D.xml" : String)
        ≠ "A" ++ " VCP " ++ ("S" ++ " - " ++ "Z" ++ " - " ++ "D") ++ ".xml" := by decide

/-- C3 amended: for a record element declaring all five attributes, the
raw-mode output path is `<diagnosticAddress> <filenamePrefix>.bin` and the
structured-mode path is `<diagnosticAddress> VCP <filenamePrefix>.xml`,
where `filenamePrefix` is `startAddress ++ " " ++ zdcName ++ " - " ++
description`: a single space joins startAddress and zdcName, and `" - "`
only precedes the operator-supplied description. -/
theorem C3_amended_artifact_paths (fp : String) (st : ParseState) (e : OdisElement)
    (da sa zn zv lg p : String)
    (h1 : e.diagnosticAddress = some da) (h2 : e.startAddress = some sa)
    (h3 : e.zdcName = some zn) (h4 : e.zdcVersion = some zv)
    (h5 : e.login = some lg) (h6 : e.payload = some p) :
    (∀ st' a, processElement "raw" fp st e = Except.ok (st', a) →
      artifactPath a
        = stripDiagAddress da ++ " " ++ (sa ++ " " ++ zn ++ " - " ++ fp) ++ ".bin") ∧
    (∀ st' a, processElement "vcp" fp st e = Except.ok (st', a) →
      artifactPath a
        = stripDiagAddress da ++ " VCP " ++ (sa ++ " " ++ zn ++ " - " ++ fp) ++ ".xml") := by
  have hAp := applyAttrs_all fp st e da sa zn zv lg h1 h2 h3 h4 h5
  constructor
  · intro st' a h
    unfold processElement at h
    rw [hAp] at h
    exact convertPhase_raw_path _ st' e a p _ _ h6 rfl rfl h
  · intro st' a h
    unfold processElement at h
    rw [hAp] at h
    exact convertPhase_vcp_path _ st' e a p _ _ _ _ _ _ h6 rfl rfl rfl rfl rfl rfl h

/-- C3 witness: the amended path composition at the concrete record
`elemFull` (raw mode), whose artifact path is `17 0x2000 ZDC1 - D.bin`. -/
theorem C3_amended_artifact_paths_witness :
    artifactPath artFullRaw
      = stripDiagAddress "0x0017" ++ " " ++ ("0x2000" ++ " " ++ "ZDC1" ++ " - " ++ "D") ++ ".bin" :=
  (C3_amended_artifact_paths "D" (initState 0 0) elemFull "0x0017" "0x2000" "ZDC1" "0001"
    "20103" "0x0A,0xFF" rfl rfl rfl rfl rfl rfl).1 stAfterFull artFullRaw rfl

/-- C8: counter accounting for a run starting from zeroed counters: if
the document is processed in full (no fatal error), convertedRecords does
not exceed totalRecords and totalRecords equals the number of
record-tagged elements in document order; a document with zero record
elements completes successfully with both counters zero. -/
theorem C8_counter_accounting (mode fp : String) (elems : List OdisElement) :
    ((runPipeline mode fp elems 0 0).fatalError = false →
      (runPipeline mode fp elems 0 0).convertedRecords
          ≤ (runPipeline mode fp elems 0 0).totalRecords ∧
      (runPipeline mode fp elems 0 0).totalRecords = elems.length) ∧
    (elems = [] →
      (runPipeline mode fp elems 0 0).fatalError = false ∧
      (runPipeline mode fp elems 0 0).totalRecords = 0 ∧
      (runPipeline mode fp elems 0 0).convertedRecords = 0) := by
  constructor
  · intro h
    unfold runPipeline at h ⊢
    rcases hr : runLoop mode fp elems (initState 0 0) with ⟨st, p⟩
    rcases p with ⟨arts, err⟩
    simp only [hr] at h ⊢
    cases err with
    | some e => simp at h
    | none =>
      obtain ⟨i1, i2, i3, _⟩ := runLoop_ok mode fp elems (initState 0 0) st arts hr
      simp only [initState] at i1 i2
      omega
  · intro h
    subst h
    exact ⟨rfl, rfl, rfl⟩

/-- C8 witness: the inequality and the element count for the concrete
one-record document `[elemFull]`. -/
theorem C8_counter_accounting_witness :
    (runPipeline "vcp" "D" [elemFull] 0 0).convertedRecords
        ≤ (runPipeline "vcp" "D" [elemFull] 0 0).totalRecords ∧
    (runPipeline "vcp" "D" [elemFull] 0 0).totalRecords = List.length [elemFull] :=
  (C8_counter_accounting "vcp" "D" [elemFull]).1 (by decide)

/-- C9: malformed-record atomicity.  If the loop reaches an element with
no text child (after a successfully processed prefix), the run ends in
the fatal-error branch (the failure is reported, not skipped), the
written artifacts are exactly those of the prefix — no later element is
converted — and `extracted_dataset_counter` is unchanged from its value
before that element was reached. -/
theorem C9_malformed_record_aborts (mode fp : String) (pre : List OdisElement)
    (e : OdisElement) (rest : List OdisElement) (t0 c0 : Nat)
    (st1 : ParseState) (arts1 : List Artifact)
    (hp : e.payload = none)
    (hpre : runLoop mode fp pre (initState t0 c0) = (st1, arts1, none)) :
    (runPipeline mode fp (pre ++ e :: rest) t0 c0).fatalError = true ∧
    (runPipeline mode fp (pre ++ e :: rest) t0 c0).artifacts = arts1 ∧
    (runPipeline mode fp (pre ++ e :: rest) t0 c0).convertedRecords
      = st1.extractedCounter := by
  obtain ⟨st2, err, hpe, hec⟩ := processElement_no_payload mode fp st1 e hp
  rcases runLoop_split mode fp pre (e :: rest) (initState t0 c0) with
    ⟨st1', arts1', hpre', happ⟩ | ⟨st1', arts1', err', hpre', happ⟩
  · rw [hpre] at hpre'
    injection hpre' with ha hb
    injection hb with hb1 hb2
    subst ha
    subst hb1
    have hloop : runLoop mode fp (e :: rest) st1 = (st2, [], some err) := by
      simp [runLoop, hpe]
    rw [hloop] at happ
    refine ⟨?_, ?_, ?_⟩ <;> simp [runPipeline, happ, hec]
  · rw [hpre] at hpre'
    injection hpre' with ha hb
    injection hb with hb1 hb2
    exact Option.noConfusion hb2

/-- C9 witness: a three-element document whose middle element has no text
child: the run is fatal, only the first element's artifact exists, and the
converted counter stays at the prefix value 1. -/
theorem C9_malformed_record_aborts_witness :
    (runPipeline "vcp" "D" ([elemFull] ++ elemNoPayload :: [elemFull]) 0 0).fatalError = true ∧
    (runPipeline "vcp" "D" ([elemFull] ++ elemNoPayload :: [elemFull]) 0 0).artifacts
        = [artFullVcp] ∧
    (runPipeline "vcp" "D" ([elemFull] ++ elemNoPayload :: [elemFull]) 0 0).convertedRecords
        = stAfterFull.extractedCounter :=
  C9_malformed_record_aborts "vcp" "D" [elemFull] elemNoPayload [elemFull] 0 0
    stAfterFull [artFullVcp] rfl rfl

/-- C1: attribute carry-over.  First part: a successfully processed
element never resets a metadata field it does not declare — each of the
five attribute variables keeps its previous value.  Second part: in
structured mode, an element that lacks START_ADDRESS anywhere in a
successfully converted document is converted with the most recently
declared START_ADDRESS of the preceding elements: the START-ADR value of
its output artifact equals `lastStartAux pre none`, the nearest preceding
declaration (in particular a second record element lacking START_ADDRESS
uses the first record's startAddress). -/
theorem C1_attribute_carry_over :
    (∀ mode fp st e st' a, processElement mode fp st e = Except.ok (st', a) →
      (e.diagnosticAddress = none → st'.diagnosticAddress = st.diagnosticAddress) ∧
      (e.startAddress = none → st'.startAddress = st.startAddress) ∧
      (e.zdcName = none → st'.zdcName = st.zdcName) ∧
      (e.zdcVersion = none → st'.zdcVersion = st.zdcVersion) ∧
      (e.login = none → st'.login = st.login)) ∧
    (∀ fp pre e rest t0 c0, e.startAddress = none →
      (runPipeline "vcp" fp (pre ++ e :: rest) t0 c0).fatalError = false →
      ∃ s, lastStartAux pre none = some s ∧
        artifactListStartAdr (runPipeline "vcp" fp (pre ++ e :: rest) t0 c0).artifacts
          pre.length = some s) := by
  constructor
  · intro mode fp st e st' a h
    obtain ⟨f1, f2, f3, f4, f5, _, _⟩ := processElement_ok_fields mode fp st e st' a h
    refine ⟨fun hd => ?_, fun hs => ?_, fun hn => ?_, fun hv => ?_, fun hl => ?_⟩
    · rw [hd] at f1
      exact f1
    · rw [hs] at f2
      exact f2
    · rw [hn] at f3
      exact f3
    · rw [hv] at f4
      exact f4
    · rw [hl] at f5
      exact f5
  · intro fp pre e rest t0 c0 hsNone hok
    rcases hfull : runLoop "vcp" fp (pre ++ e :: rest) (initState t0 c0) with ⟨stF, pF⟩
    rcases pF with ⟨artsF, errF⟩
    unfold runPipeline at hok
    simp only [hfull] at hok
    cases errF with
    | some err0 => simp at hok
    | none =>
      rcases runLoop_split "vcp" fp pre (e :: rest) (initState t0 c0) with
        ⟨st1, arts1, hpre, happ⟩ | ⟨st1, arts1, err1, hpre, happ⟩
      · cases hpe : processElement "vcp" fp st1 e with
        | error pe =>
          rcases pe with ⟨st2, err2⟩
          have hloop : runLoop "vcp" fp (e :: rest) st1 = (st2, [], some err2) := by
            simp [runLoop, hpe]
          rw [hloop, hfull] at happ
          dsimp only at happ
          injection happ with ha hb
          injection hb with hb1 hb2
          exact Option.noConfusion hb2
        | ok pe =>
          rcases pe with ⟨st2, a⟩
          rcases hrest : runLoop "vcp" fp rest st2 with ⟨st3, p3⟩
          rcases p3 with ⟨arts3, err3⟩
          have hloop : runLoop "vcp" fp (e :: rest) st1 = (st3, a :: arts3, err3) := by
            simp [runLoop, hpe, hrest]
          rw [hloop, hfull] at happ
          dsimp only at happ
          injection happ with ha hb
          injection hb with hb1 hb2
          obtain ⟨_, _, hlen1, hstart1⟩ :=
            runLoop_ok "vcp" fp pre (initState t0 c0) st1 arts1 hpre
          have hstart1n : st1.startAddress = lastStartAux pre none := hstart1
          obtain ⟨path, p2, sa, zn, zv, lg, hp2, hart⟩ :=
            processElement_vcp_shape fp st1 e st2 a hpe
          have hadr : artifactStartAdr a = st1.startAddress :=
            processElement_vcp_startAdr fp st1 e st2 a hpe hsNone
          have hsa : st1.startAddress = some sa := by
            rw [← hadr, hart]
            rfl
          refine ⟨sa, hstart1n.symm.trans hsa, ?_⟩
          unfold runPipeline
          simp only [hfull]
          rw [hb1]
          unfold artifactListStartAdr
          have hidx : (arts1 ++ a :: arts3)[pre.length]? = some a := by
            rw [← hlen1, List.getElem?_append_right (le_refl arts1.length)]
            simp
          rw [hidx]
          show artifactStartAdr a = some sa
          rw [hart]
          rfl
      · rw [hfull] at happ
        injection happ with ha hb
        injection hb with hb1 hb2
        exact Option.noConfusion hb2

/-- C1 witness: a two-element document whose second element declares no
attribute at all, converted in structured mode: the second artifact's
START-ADR is the first element's startAddress `0x2000`. -/
theorem C1_attribute_carry_over_witness :
    artifactListStartAdr
        (runPipeline "vcp" "D" ([elemFull] ++ elemCarry :: []) 0 0).artifacts
        (List.length [elemFull])
      = some "0x2000" := by
  obtain ⟨s, hs, ha⟩ :=
    C1_attribute_carry_over.2 "D" [elemFull] elemCarry [] 0 0 rfl (by decide)
  have h2 : lastStartAux [elemFull] none = some "0x2000" := by decide
  rw [hs] at h2
  injection h2 with h3
  rw [← h3]
  exact ha
